import Mathlib

noncomputable section

/-!
Verification of the GAN notebook `Generative-Dog-Images.ipynb`.

The development shallowly embeds the three pieces of the notebook that carry
logic of their own:

* the layer stacks built by `make_generator_model` and
  `make_discriminator_model`, embedded by their effect on tensor shapes;
* the training step `train_step` (loss computation and the two optimizer
  updates), with the TensorFlow primitives (forward passes, gradient tape,
  `apply_gradients`, `tf.random.normal`, PNG encoding) abstracted as fields of
  a `Framework` record, since they are library code, not code of this
  repository;
* the submission-packaging loop that writes `<index>.png` entries into
  `images.zip`.

Real-valued tensors are embedded as lists of real numbers; shapes as lists of
naturals.
-/

/-! ### Layer stacks and their shape semantics

Each Keras layer used by the notebook, abstracted to its effect on the shape
of the (per-sample) tensor flowing through it.  All convolutions in the
notebook use `padding='same'`, so a `Conv2DTranspose` with stride `s`
multiplies each spatial dimension by `s`, and a `Conv2D` with stride `s`
divides each spatial dimension by `s` rounding up. -/
inductive KLayer where
  | dense (units : ℕ)
  | batchNormalization
  | leakyReLU
  | reshape (target : List ℕ)
  | conv2DTranspose (filters kernel stride : ℕ)
  | conv2D (filters kernel stride : ℕ)
  | dropout
  | flatten
deriving DecidableEq

/-- Output shape of one layer on a given input shape (`none` on a shape the
layer rejects).  `reshape` requires the element counts to agree, exactly as
Keras does. -/
def layerOutShape : KLayer → List ℕ → Option (List ℕ)
  | .dense u, [_] => some [u]
  | .dense _, _ => none
  | .batchNormalization, s => some s
  | .leakyReLU, s => some s
  | .dropout, s => some s
  | .reshape t, s => if s.prod = t.prod then some t else none
  | .conv2DTranspose f _ st, [h, w, _] => some [h * st, w * st, f]
  | .conv2DTranspose _ _ _, _ => none
  | .conv2D f _ st, [h, w, _] => some [(h + st - 1) / st, (w + st - 1) / st, f]
  | .conv2D _ _ _, _ => none
  | .flatten, s => some [s.prod]

/-- Output shape of a sequential stack of layers. -/
def modelOutShape (layers : List KLayer) (input : List ℕ) : Option (List ℕ) :=
  layers.foldl (fun s l => s.bind (layerOutShape l)) (some input)

/-- The generator stack of `make_generator_model`:
`Dense(8*8*256)` on a length-100 noise vector, `Reshape((8,8,256))`, two
stride-2 `Conv2DTranspose` blocks (128 then 64 filters) and a final stride-1
`Conv2DTranspose(3, activation='tanh')`, with `BatchNormalization`/`LeakyReLU`
between blocks.  The `tanh` activation does not affect the shape. -/
def make_generator_model : List KLayer :=
  [ .dense (8 * 8 * 256), .batchNormalization, .leakyReLU,
    .reshape [8, 8, 256],
    .conv2DTranspose 128 5 2, .batchNormalization, .leakyReLU,
    .conv2DTranspose 64 5 2, .batchNormalization, .leakyReLU,
    .conv2DTranspose 3 5 1 ]

/-- The discriminator stack of `make_discriminator_model`, declared with
`input_shape=[64,64,3]`: two stride-2 `Conv2D` blocks (64 then 128 filters)
with `LeakyReLU`/`Dropout`, then `Flatten` and `Dense(1)`. -/
def make_discriminator_model : List KLayer :=
  [ .conv2D 64 5 2, .leakyReLU, .dropout,
    .conv2D 128 5 2, .leakyReLU, .dropout,
    .flatten, .dense 1 ]

/-- `noise_dim = 100` from the notebook. -/
def noise_dim : ℕ := 100

/-- Declared discriminator input shape (`input_shape=[64,64,3]`). -/
def discriminator_input_shape : List ℕ := [64, 64, 3]

/-- C1: the spec asserts the generator's native output resolution is 64×64×3;
on the code, the stack of `make_generator_model` applied to a length-100 noise
vector produces shape 32×32×3 (8→16→32 spatially, final stride 1), which is
not 64×64×3 and differs from the discriminator's declared 64×64×3 input. -/
theorem generator_output_shape_is_32x32x3 :
    modelOutShape make_generator_model [noise_dim] = some [32, 32, 3] ∧
    modelOutShape make_generator_model [noise_dim] ≠ some [64, 64, 3] ∧
    modelOutShape make_discriminator_model discriminator_input_shape = some [1] ∧
    modelOutShape make_generator_model [noise_dim] ≠ some discriminator_input_shape := by
  refine ⟨rfl, by decide, rfl, by decide⟩

/-! ### Losses

`cross_entropy = tf.keras.losses.BinaryCrossentropy(from_logits=True)`:
given a target vector and a logit vector, TensorFlow averages the per-element
logit-space binary cross-entropy `log(1 + exp x) - y * x` over the batch. -/

/-- `tf.ones_like`: an all-ones vector of the same length. -/
def ones_like (xs : List ℝ) : List ℝ := xs.map (fun _ => 1)

/-- `tf.zeros_like`: an all-zeros vector of the same length. -/
def zeros_like (xs : List ℝ) : List ℝ := xs.map (fun _ => 0)

/-- `tf.keras.losses.BinaryCrossentropy(from_logits=True)` applied to a
target vector and a logit vector: the mean of `log(1 + exp x) - y * x` over
the paired elements. -/
def cross_entropy (target output : List ℝ) : ℝ :=
  ((target.zip output).map (fun p => Real.log (1 + Real.exp p.2) - p.1 * p.2)).sum
    / output.length

/-! ### The TensorFlow surface used by the notebook

The notebook's own logic calls into TensorFlow for the forward passes of the
two `Sequential` models, the gradient tape, `Optimizer.apply_gradients`,
`tf.random.normal`, and (through PIL) PNG encoding.  These are library code,
not code of this repository, so they are abstracted as an arbitrary record of
functions; every theorem below is proved for all such records. -/

/-- The framework primitives the notebook calls.  Tensors are flattened to
lists of reals; optimizer slot state (Adam moments) is an opaque list. -/
structure Framework where
  /-- `generator(noise, training=b)`: generator parameters, then one noise
  vector, to one (flattened) image. -/
  gForward : Bool → List ℝ → List ℝ → List ℝ
  /-- `discriminator(image, training=b)`: discriminator parameters, then one
  image, to one realism logit. -/
  dForward : Bool → List ℝ → List ℝ → ℝ
  /-- `gen_tape.gradient(gen_loss, generator.trainable_variables)` as a
  function of the parameters of both networks and the noise batch. -/
  gradGen : List ℝ → List ℝ → List (List ℝ) → List ℝ
  /-- `disc_tape.gradient(disc_loss, discriminator.trainable_variables)` as a
  function of both parameter sets, the noise batch and the real batch. -/
  gradDisc : List ℝ → List ℝ → List (List ℝ) → List (List ℝ) → List ℝ
  /-- `optimizer.apply_gradients`: optimizer slot state, current parameters
  and gradients, to updated parameters and updated slot state. -/
  applyGradients : List ℝ → List ℝ → List ℝ → List ℝ × List ℝ
  /-- `tf.random.normal([r, c])` for the current draw of the ambient RNG. -/
  randomNormal : ℕ → ℕ → List (List ℝ)
  /-- PIL PNG encoding of one quantized image to a byte stream. -/
  pngEncode : List ℤ → List ℕ

/-- The notebook's mutable globals: the two networks' trainable variables and
the two Adam optimizers' slot state. -/
structure GanState where
  gParams : List ℝ
  dParams : List ℝ
  gOpt : List ℝ
  dOpt : List ℝ

/-- `generator_optimizer.apply_gradients(zip(gradients_of_generator,
generator.trainable_variables))`: updates the generator's variables and the
generator optimizer's slot state, touching nothing else. -/
def applyGenUpdate (F : Framework) (grads : List ℝ) (s : GanState) : GanState :=
  let u := F.applyGradients s.gOpt s.gParams grads
  { s with gParams := u.1, gOpt := u.2 }

/-- `discriminator_optimizer.apply_gradients(zip(gradients_of_discriminator,
discriminator.trainable_variables))`: updates the discriminator's variables
and the discriminator optimizer's slot state, touching nothing else. -/
def applyDiscUpdate (F : Framework) (grads : List ℝ) (s : GanState) : GanState :=
  let u := F.applyGradients s.dOpt s.dParams grads
  { s with dParams := u.1, dOpt := u.2 }

/-- `train_step(images)` from the notebook: draw one noise batch (one
length-100 vector per real image), run the generator on it, score the real and
generated batches with the discriminator, form the two losses, take both
gradients inside the tape scope, then apply the generator update followed by
the discriminator update.  Returns `(gen_loss, disc_loss)` and the state after
both updates. -/
def train_step (F : Framework) (s : GanState) (images : List (List ℝ)) :
    (ℝ × ℝ) × GanState :=
  let noise := F.randomNormal images.length noise_dim
  let generated_images := noise.map (F.gForward true s.gParams)
  let real_output := images.map (F.dForward true s.dParams)
  let fake_output := generated_images.map (F.dForward true s.dParams)
  let gen_loss := cross_entropy (ones_like fake_output) fake_output
  let disc_loss := cross_entropy (ones_like real_output) real_output +
    cross_entropy (zeros_like fake_output) fake_output
  let gradients_of_generator := F.gradGen s.gParams s.dParams noise
  let gradients_of_discriminator := F.gradDisc s.gParams s.dParams noise images
  ((gen_loss, disc_loss),
    applyDiscUpdate F gradients_of_discriminator
      (applyGenUpdate F gradients_of_generator s))

/-- `train_step` with the two `apply_gradients` calls in the opposite order
(discriminator update first), everything else unchanged. -/
def train_step_swapped (F : Framework) (s : GanState) (images : List (List ℝ)) :
    (ℝ × ℝ) × GanState :=
  let noise := F.randomNormal images.length noise_dim
  let generated_images := noise.map (F.gForward true s.gParams)
  let real_output := images.map (F.dForward true s.dParams)
  let fake_output := generated_images.map (F.dForward true s.dParams)
  let gen_loss := cross_entropy (ones_like fake_output) fake_output
  let disc_loss := cross_entropy (ones_like real_output) real_output +
    cross_entropy (zeros_like fake_output) fake_output
  let gradients_of_generator := F.gradGen s.gParams s.dParams noise
  let gradients_of_discriminator := F.gradDisc s.gParams s.dParams noise images
  ((gen_loss, disc_loss),
    applyGenUpdate F gradients_of_generator
      (applyDiscUpdate F gradients_of_discriminator s))

/-- The noise batch `tf.random.normal([images.shape[0], noise_dim])` drawn at
the top of `train_step`. -/
def step_noise (F : Framework) (images : List (List ℝ)) : List (List ℝ) :=
  F.randomNormal images.length noise_dim

/-- The local `generated_images = generator(noise, training=True)` of
`train_step`. -/
def step_generated (F : Framework) (s : GanState) (images : List (List ℝ)) :
    List (List ℝ) :=
  (step_noise F images).map (F.gForward true s.gParams)

/-- The local `real_output = discriminator(images, training=True)` of
`train_step`. -/
def step_real_output (F : Framework) (s : GanState) (images : List (List ℝ)) :
    List ℝ :=
  images.map (F.dForward true s.dParams)

/-- The local `fake_output = discriminator(generated_images, training=True)`
of `train_step`. -/
def step_fake_output (F : Framework) (s : GanState) (images : List (List ℝ)) :
    List ℝ :=
  (step_generated F s images).map (F.dForward true s.dParams)

/-! ### Submission packaging

The notebook's last cell:

* `num_images_to_generate = 10000`, `batch_size = 100`;
* `for i in range(0, num_images_to_generate, batch_size)` draw a fresh noise
  batch of `batch_size` length-100 vectors, run
  `generator(noise, training=False)`, rescale via `(x + 1) / 2` then `* 255`,
  cast to `uint8` (C-style truncation toward zero), and
* `for j in range(batch_size)` write the PNG encoding of image `j` into the
  zip archive under the name `f'{i+j}.png'`.
-/

/-- `num_images_to_generate = 10000`. -/
def num_images_to_generate : ℕ := 10000

/-- `batch_size = 100` (the packaging batch size). -/
def batch_size : ℕ := 100

/-- Python's `range(0, stop, step)` for a positive `step`: the
`⌈stop / step⌉` multiples of `step` below `stop`, in order. -/
def pyRange (stop step : ℕ) : List ℕ :=
  (List.range ((stop + step - 1) / step)).map (· * step)

/-- NumPy's `astype(np.uint8)` float-to-integer conversion on the value range
relevant here: C-style truncation of the fractional part, toward zero. -/
def truncTowardZero (x : ℝ) : ℤ :=
  if 0 ≤ x then ⌊x⌋ else -⌊-x⌋

/-- The per-pixel quantization of the packaging loop:
`(p + 1) / 2` (scale back to `[0,1]`), `* 255`, then `astype(np.uint8)`. -/
def quantizePixel (p : ℝ) : ℤ :=
  truncTowardZero ((p + 1) / 2 * 255)

/-- `img_name = f'{i+j}.png'`: decimal index with a `.png` suffix. -/
def entryName (n : ℕ) : String :=
  Nat.repr n ++ ".png"

/-- The packaging loop of the final cell: over `range(0, total, batch)`, draw
`batch` fresh noise vectors, run the generator with `training=False`, quantize
each pixel, and write entry `f'{i+j}.png'` with the PNG bytes of image `j`
for each `j` in `range(batch)`.  Returns the ordered archive entries (name,
bytes) together with the (untouched) model/optimizer state. -/
def makeSubmission (F : Framework) (s : GanState) (total batch : ℕ) :
    List (String × List ℕ) × GanState :=
  ((pyRange total batch).flatMap (fun i =>
      let noise := F.randomNormal batch noise_dim
      let generated_images :=
        (noise.map (F.gForward false s.gParams)).map (fun img => img.map quantizePixel)
      (List.range batch).map (fun j =>
        (entryName (i + j), F.pngEncode (generated_images.getD j [])))),
    s)

/-- A concrete framework instance used to instantiate theorems with
hypotheses on concrete inputs. -/
def F₀ : Framework where
  gForward := fun _ _ _ => [0]
  dForward := fun _ _ _ => 0
  gradGen := fun _ _ _ => []
  gradDisc := fun _ _ _ _ => []
  applyGradients := fun o p _ => (p, o)
  randomNormal := fun r c => List.replicate r (List.replicate c 0)
  pngEncode := fun _ => []

/-- A concrete GAN state used alongside `F₀`. -/
def s₀ : GanState where
  gParams := []
  dParams := []
  gOpt := []
  dOpt := []

/-- Splitting `List.range (r * b)` into `r` consecutive blocks of `b`
indices: block `i` holds `i*b + j` for `j < b`. -/
theorem range_mul_blocks {α : Type} (f : ℕ → α) (r b : ℕ) :
    ((List.range r).map (· * b)).flatMap
        (fun i => (List.range b).map (fun j => f (i + j)))
      = (List.range (r * b)).map f := by
  induction r with
  | zero => simp
  | succ n ih =>
    rw [List.range_succ, List.map_append, List.flatMap_append, ih,
      Nat.succ_mul, List.range_add, List.map_append]
    simp [List.map_map, Function.comp]

/-- The entry names written by the packaging loop are `entryName` applied to
`0, 1, …, ⌈total/batch⌉·batch - 1`, in order. -/
theorem makeSubmission_names (F : Framework) (s : GanState) (total batch : ℕ) :
    (makeSubmission F s total batch).1.map Prod.fst
      = (List.range (((total + batch - 1) / batch) * batch)).map entryName := by
  rw [← range_mul_blocks entryName]
  simp [makeSubmission, pyRange, List.map_flatMap, List.map_map,
    Function.comp_def]

/-- When `batch` divides `total`, the `⌈total/batch⌉` rounds of the loop
cover exactly `total` indices. -/
theorem ceil_rounds_of_dvd {total batch : ℕ} (hb : 0 < batch)
    (hdvd : batch ∣ total) : ((total + batch - 1) / batch) * batch = total := by
  obtain ⟨q, rfl⟩ := hdvd
  have h1 : batch * q + batch - 1 = batch - 1 + batch * q := by omega
  rw [h1, Nat.add_mul_div_left _ _ hb, Nat.div_eq_of_lt (by omega),
    Nat.zero_add, Nat.mul_comm]

/-- When `batch` does not divide `total`, the loop covers strictly more than
`total` indices. -/
theorem ceil_rounds_of_not_dvd {total batch : ℕ} (hb : 0 < batch)
    (hnd : ¬ batch ∣ total) :
    total < ((total + batch - 1) / batch) * batch := by
  have e := Nat.div_add_mod total batch
  have hr : total % batch ≠ 0 := fun h => hnd (Nat.dvd_of_mod_eq_zero h)
  have hrb : total % batch < batch := Nat.mod_lt _ hb
  set q := total / batch with hq
  set r := total % batch with hrdef
  have h1 : total + batch - 1 = r - 1 + batch * (q + 1) := by
    have h2 : batch * (q + 1) = batch * q + batch := by ring
    omega
  rw [h1, Nat.add_mul_div_left _ _ hb, Nat.div_eq_of_lt (by omega),
    Nat.zero_add]
  have h3 : (q + 1) * batch = batch * q + batch := by ring
  omega

/-- C2: with `BATCH` dividing `TOTAL` (and `BATCH > 0`), the packaging loop
writes exactly `TOTAL` entries, and the entry names are `0.png`, `1.png`, …,
`(TOTAL-1).png` in order — `entryName` mapped over `[0, TOTAL)` — so every
index in `[0, TOTAL)` occurs, with no gaps and no duplicates. -/
theorem submission_entries_cover_total (F : Framework) (s : GanState)
    (total batch : ℕ) (hb : 0 < batch) (hdvd : batch ∣ total) :
    (makeSubmission F s total batch).1.map Prod.fst
        = (List.range total).map entryName ∧
      (makeSubmission F s total batch).1.length = total := by
  have h := makeSubmission_names F s total batch
  rw [ceil_rounds_of_dvd hb hdvd] at h
  refine ⟨h, ?_⟩
  have h2 := congrArg List.length h
  simpa using h2

/-- Witness for C2 at `TOTAL = 4`, `BATCH = 2`. -/
theorem submission_entries_cover_total_witness :
    ((0 < 2) ∧ (2 ∣ 4)) ∧
      ((makeSubmission F₀ s₀ 4 2).1.map Prod.fst
          = (List.range 4).map entryName ∧
        (makeSubmission F₀ s₀ 4 2).1.length = 4) :=
  ⟨⟨by decide, by decide⟩,
    submission_entries_cover_total F₀ s₀ 4 2 (by decide) (by decide)⟩

/-- C10: when `BATCH` does not divide `TOTAL` (and `BATCH > 0`), the loop
still runs `⌈TOTAL/BATCH⌉` full rounds of `BATCH` entries each, so the
archive receives exactly `⌈TOTAL/BATCH⌉·BATCH` entries — strictly more than
`TOTAL` — named by the indices `0` through `⌈TOTAL/BATCH⌉·BATCH - 1`. -/
theorem submission_overruns_when_not_divisible (F : Framework) (s : GanState)
    (total batch : ℕ) (hb : 0 < batch) (hnd : ¬ batch ∣ total) :
    (makeSubmission F s total batch).1.map Prod.fst
        = (List.range (((total + batch - 1) / batch) * batch)).map entryName ∧
      (makeSubmission F s total batch).1.length
        = ((total + batch - 1) / batch) * batch ∧
      total < ((total + batch - 1) / batch) * batch := by
  have h := makeSubmission_names F s total batch
  refine ⟨h, ?_, ceil_rounds_of_not_dvd hb hnd⟩
  have h2 := congrArg List.length h
  simpa using h2

/-- Witness for C10 at `TOTAL = 5`, `BATCH = 2` (3 rounds, 6 entries). -/
theorem submission_overruns_witness :
    ((0 < 2) ∧ ¬ (2 ∣ 5)) ∧
      ((makeSubmission F₀ s₀ 5 2).1.map Prod.fst
          = (List.range (((5 + 2 - 1) / 2) * 2)).map entryName ∧
        (makeSubmission F₀ s₀ 5 2).1.length = ((5 + 2 - 1) / 2) * 2 ∧
        5 < ((5 + 2 - 1) / 2) * 2) :=
  ⟨⟨by decide, by decide⟩,
    submission_overruns_when_not_divisible F₀ s₀ 5 2 (by decide) (by decide)⟩

/-! ### Properties of the binary cross-entropy terms -/

/-- Against an all-ones target, the paired from-logits loss terms reduce to
`log(1 + exp x) - x` per logit. -/
theorem zip_ones_like (xs : List ℝ) :
    ((ones_like xs).zip xs).map
        (fun p => Real.log (1 + Real.exp p.2) - p.1 * p.2)
      = xs.map (fun x => Real.log (1 + Real.exp x) - x) := by
  induction xs with
  | nil => rfl
  | cons x t ih =>
    simp only [ones_like, List.map_cons] at ih ⊢
    simp only [List.zip_cons_cons, List.map_cons, one_mul]
    rw [ih]

/-- Against an all-zeros target, the paired from-logits loss terms reduce to
`log(1 + exp x)` per logit. -/
theorem zip_zeros_like (xs : List ℝ) :
    ((zeros_like xs).zip xs).map
        (fun p => Real.log (1 + Real.exp p.2) - p.1 * p.2)
      = xs.map (fun x => Real.log (1 + Real.exp x)) := by
  induction xs with
  | nil => rfl
  | cons x t ih =>
    simp only [zeros_like, List.map_cons] at ih ⊢
    simp only [List.zip_cons_cons, List.map_cons, zero_mul, sub_zero]
    rw [ih]

/-- The all-ones-target cross-entropy is the mean of `log(1 + exp x) - x`. -/
theorem cross_entropy_ones_eq (xs : List ℝ) :
    cross_entropy (ones_like xs) xs
      = (xs.map (fun x => Real.log (1 + Real.exp x) - x)).sum / xs.length := by
  unfold cross_entropy
  rw [zip_ones_like]

/-- The all-zeros-target cross-entropy is the mean of `log(1 + exp x)`. -/
theorem cross_entropy_zeros_eq (xs : List ℝ) :
    cross_entropy (zeros_like xs) xs
      = (xs.map (fun x => Real.log (1 + Real.exp x))).sum / xs.length := by
  unfold cross_entropy
  rw [zip_zeros_like]

/-- `log(1 + exp x) - x ≥ 0`. -/
theorem softplus_sub_nonneg (x : ℝ) : 0 ≤ Real.log (1 + Real.exp x) - x := by
  have h1 : (0 : ℝ) < Real.exp x := Real.exp_pos x
  have h3 : Real.log (Real.exp x) ≤ Real.log (1 + Real.exp x) := by
    gcongr
    linarith
  rw [Real.log_exp] at h3
  linarith

/-- `log(1 + exp x) ≥ 0`. -/
theorem softplus_nonneg (x : ℝ) : 0 ≤ Real.log (1 + Real.exp x) :=
  Real.log_nonneg (by linarith [Real.exp_pos x])

/-- The all-ones-target cross-entropy is nonnegative. -/
theorem cross_entropy_ones_nonneg (xs : List ℝ) :
    0 ≤ cross_entropy (ones_like xs) xs := by
  rw [cross_entropy_ones_eq]
  apply div_nonneg
  · apply List.sum_nonneg
    intro y hy
    obtain ⟨x, _, rfl⟩ := List.mem_map.1 hy
    exact softplus_sub_nonneg x
  · exact Nat.cast_nonneg _

/-- The all-zeros-target cross-entropy is nonnegative. -/
theorem cross_entropy_zeros_nonneg (xs : List ℝ) :
    0 ≤ cross_entropy (zeros_like xs) xs := by
  rw [cross_entropy_zeros_eq]
  apply div_nonneg
  · apply List.sum_nonneg
    intro y hy
    obtain ⟨x, _, rfl⟩ := List.mem_map.1 hy
    exact softplus_nonneg x
  · exact Nat.cast_nonneg _

/-- The from-logits loss against target 1 equals the probability-space
cross-entropy `-log σ(x)` of the sigmoid of the logit. -/
theorem softplus_sub_as_sigmoid_loss (x : ℝ) :
    Real.log (1 + Real.exp x) - x = -Real.log (1 / (1 + Real.exp (-x))) := by
  have h0 : (0 : ℝ) < 1 + Real.exp x := by positivity
  rw [one_div, Real.log_inv, neg_neg]
  have h2 : 1 + Real.exp (-x) = (1 + Real.exp x) * Real.exp (-x) := by
    rw [add_mul, one_mul, ← Real.exp_add]
    simp [add_comm]
  rw [h2, Real.log_mul (ne_of_gt h0) (ne_of_gt (Real.exp_pos _)), Real.log_exp]
  ring

/-- C3: the discriminator loss returned by `train_step` is the sum of the
binary cross-entropy between the real-output scores and an all-ones target
and the binary cross-entropy between the fake-output scores and an all-zeros
target; both terms are the from-logits cross-entropy mean. -/
theorem train_step_disc_loss_eq (F : Framework) (s : GanState)
    (images : List (List ℝ)) :
    (train_step F s images).1.2
        = cross_entropy (ones_like (step_real_output F s images))
            (step_real_output F s images)
          + cross_entropy (zeros_like (step_fake_output F s images))
            (step_fake_output F s images) ∧
      (∀ xs : List ℝ, cross_entropy (ones_like xs) xs
        = (xs.map (fun x => Real.log (1 + Real.exp x) - x)).sum / xs.length) ∧
      (∀ xs : List ℝ, cross_entropy (zeros_like xs) xs
        = (xs.map (fun x => Real.log (1 + Real.exp x))).sum / xs.length) :=
  ⟨rfl, cross_entropy_ones_eq, cross_entropy_zeros_eq⟩

/-- C4: the generator loss returned by `train_step` is the binary
cross-entropy between the fake-output scores and an all-ones target,
computed from raw logits: it equals the mean of `-log σ(x)` where `σ` is the
sigmoid applied internally to the raw scores. -/
theorem train_step_gen_loss_eq (F : Framework) (s : GanState)
    (images : List (List ℝ)) :
    (train_step F s images).1.1
        = cross_entropy (ones_like (step_fake_output F s images))
            (step_fake_output F s images) ∧
      (∀ xs : List ℝ, cross_entropy (ones_like xs) xs
        = (xs.map (fun x => -Real.log (1 / (1 + Real.exp (-x))))).sum
            / xs.length) := by
  refine ⟨rfl, fun xs => ?_⟩
  rw [cross_entropy_ones_eq]
  simp only [softplus_sub_as_sigmoid_loss]

/-- C7: the discriminator loss returned by `train_step` is nonnegative, for
every framework instantiation, state and input batch (hence for every noise
draw, the draw being part of the framework record). -/
theorem train_step_disc_loss_nonneg (F : Framework) (s : GanState)
    (images : List (List ℝ)) :
    0 ≤ (train_step F s images).1.2 := by
  have h : (train_step F s images).1.2
      = cross_entropy (ones_like (step_real_output F s images))
          (step_real_output F s images)
        + cross_entropy (zeros_like (step_fake_output F s images))
          (step_fake_output F s images) := rfl
  rw [h]
  exact add_nonneg (cross_entropy_ones_nonneg _) (cross_entropy_zeros_nonneg _)

/-- C6: swapping the order of the two `apply_gradients` calls at the end of
`train_step` leaves the returned `(gen_loss, disc_loss)` pair unchanged, for
every framework instantiation, state, input batch and noise draw: both losses
come from forward passes completed before either update is applied. -/
theorem train_step_swap_preserves_losses (F : Framework) (s : GanState)
    (images : List (List ℝ)) :
    (train_step_swapped F s images).1 = (train_step F s images).1 := rfl

/-- C5: within one invocation of `train_step`, the generator update and the
discriminator update are both computed from the single noise batch drawn at
the top of the step — one length-100 vector per real image, under the
`tf.random.normal` shape contract — and each optimizer application modifies
only its own network's variables and slot state. -/
theorem train_step_single_noise_and_frame (F : Framework) (s : GanState)
    (images : List (List ℝ))
    (hlen : (F.randomNormal images.length noise_dim).length = images.length)
    (hvec : ∀ v ∈ F.randomNormal images.length noise_dim, v.length = 100) :
    ∃ noise : List (List ℝ),
      noise = F.randomNormal images.length noise_dim ∧
      noise.length = images.length ∧
      (∀ v ∈ noise, v.length = 100) ∧
      (train_step F s images).2
        = applyDiscUpdate F (F.gradDisc s.gParams s.dParams noise images)
            (applyGenUpdate F (F.gradGen s.gParams s.dParams noise) s) ∧
      (∀ g t, (applyGenUpdate F g t).dParams = t.dParams ∧
        (applyGenUpdate F g t).dOpt = t.dOpt) ∧
      (∀ g t, (applyDiscUpdate F g t).gParams = t.gParams ∧
        (applyDiscUpdate F g t).gOpt = t.gOpt) :=
  ⟨F.randomNormal images.length noise_dim, rfl, hlen, hvec, rfl,
    fun _ _ => ⟨rfl, rfl⟩, fun _ _ => ⟨rfl, rfl⟩⟩

/-- Witness for C5: `F₀` satisfies the `tf.random.normal` shape contract on a
one-image batch. -/
theorem train_step_single_noise_and_frame_witness :
    ((F₀.randomNormal 1 noise_dim).length = 1 ∧
      (∀ v ∈ F₀.randomNormal 1 noise_dim, v.length = 100)) ∧
      (∃ noise : List (List ℝ),
        noise = F₀.randomNormal 1 noise_dim ∧
        noise.length = 1 ∧
        (∀ v ∈ noise, v.length = 100) ∧
        (train_step F₀ s₀ [[0]]).2
          = applyDiscUpdate F₀ (F₀.gradDisc s₀.gParams s₀.dParams noise [[0]])
              (applyGenUpdate F₀ (F₀.gradGen s₀.gParams s₀.dParams noise) s₀) ∧
        (∀ g t, (applyGenUpdate F₀ g t).dParams = t.dParams ∧
          (applyGenUpdate F₀ g t).dOpt = t.dOpt) ∧
        (∀ g t, (applyDiscUpdate F₀ g t).gParams = t.gParams ∧
          (applyDiscUpdate F₀ g t).gOpt = t.gOpt)) :=
  ⟨⟨by simp [F₀], by simp [F₀, noise_dim]⟩,
    train_step_single_noise_and_frame F₀ s₀ [[0]] (by simp [F₀])
      (by simp [F₀, noise_dim])⟩

/-- A second framework record agreeing with `F₀` exactly on the
inference-mode generator, the RNG and the PNG encoder, and differing
everywhere else. -/
def F₁ : Framework where
  gForward := fun t => if t then (fun _ _ => [1]) else F₀.gForward false
  dForward := fun _ _ _ => 1
  gradGen := fun _ _ _ => [2]
  gradDisc := fun _ _ _ _ => [3]
  applyGradients := fun _ _ _ => ([4], [5])
  randomNormal := F₀.randomNormal
  pngEncode := F₀.pngEncode

/-- C8: the packaging routine returns the model/optimizer state unchanged —
no parameter mutation and no optimizer step — and its archive depends only on
the inference-mode (`training=False`) generator, the RNG and the PNG encoder,
not on the training-mode forward passes, the gradients or the optimizers. -/
theorem submission_inference_and_frame (F G : Framework) (s : GanState)
    (total batch : ℕ)
    (hg : F.gForward false = G.gForward false)
    (hr : F.randomNormal = G.randomNormal)
    (hp : F.pngEncode = G.pngEncode) :
    makeSubmission F s total batch = makeSubmission G s total batch ∧
      (makeSubmission F s total batch).2 = s := by
  refine ⟨?_, rfl⟩
  unfold makeSubmission
  rw [hg, hr, hp]

/-- Witness for C8: `F₀` and `F₁` agree on the inference-mode generator, RNG
and PNG encoder, so packaging with either gives the same archive, and the
state comes back unchanged. -/
theorem submission_inference_and_frame_witness :
    (F₀.gForward false = F₁.gForward false ∧
      F₀.randomNormal = F₁.randomNormal ∧
      F₀.pngEncode = F₁.pngEncode) ∧
      (makeSubmission F₀ s₀ 2 1 = makeSubmission F₁ s₀ 2 1 ∧
        (makeSubmission F₀ s₀ 2 1).2 = s₀) :=
  ⟨⟨rfl, rfl, rfl⟩,
    submission_inference_and_frame F₀ F₁ s₀ 2 1 rfl rfl rfl⟩

/-- C9: for a generated pixel intensity `p ∈ [-1, 1]`, the packaging loop
stores `255·(p+1)/2` with the fractional part truncated (the floor, the
rescaled value being nonnegative) — an integer in `[0, 255]`. -/
theorem quantizePixel_eq_floor_and_range (p : ℝ) (h1 : -1 ≤ p) (h2 : p ≤ 1) :
    quantizePixel p = ⌊255 * (p + 1) / 2⌋ ∧
      0 ≤ quantizePixel p ∧ quantizePixel p ≤ 255 := by
  have hx : 0 ≤ (p + 1) / 2 * 255 := by linarith
  have hq : quantizePixel p = ⌊(p + 1) / 2 * 255⌋ := by
    simp [quantizePixel, truncTowardZero, hx]
  have heq : (p + 1) / 2 * 255 = 255 * (p + 1) / 2 := by ring
  refine ⟨by rw [hq, heq], ?_, ?_⟩
  · rw [hq]
    exact Int.floor_nonneg.2 hx
  · rw [hq]
    have hub : (p + 1) / 2 * 255 ≤ (255 : ℝ) := by linarith
    have h3 := Int.floor_mono hub
    have h4 : ⌊(255 : ℝ)⌋ = 255 := by norm_num
    rw [h4] at h3
    exact h3

/-- Witness for C9 at `p = 0`: the stored value is `⌊127.5⌋ = 127`. -/
theorem quantizePixel_witness :
    ((-1 : ℝ) ≤ 0 ∧ (0 : ℝ) ≤ 1) ∧
      (quantizePixel 0 = ⌊(255 : ℝ) * (0 + 1) / 2⌋ ∧
        0 ≤ quantizePixel 0 ∧ quantizePixel 0 ≤ 255) :=
  ⟨⟨by norm_num, by norm_num⟩,
    quantizePixel_eq_floor_and_range 0 (by norm_num) (by norm_num)⟩
